import Mathlib

/-!
Verification of sl-apartments-streamlit: a shallow embedding of the payload
builder and validator (app.py build_apartment_form), the persistence adapter
(insert_apartment), the table renderer (filter, sort, column reconciliation),
and the connection-string resolution (_normalize_postgres_uri, _apply_overrides),
together with theorems settling the specification claims about them.

Modelling conventions: Python floats are exact rationals; Python strings are
Lean strings (str.strip is String.trim, ASCII case folding for lowercasing);
a Python dict with a fixed key set is a structure with one field per key;
optional or nullable cell values are the Value type below.
-/

namespace SLApt

/-- A scalar cell value of a record: string, integer, float (exact rational),
boolean, or null/absent. -/
inductive Value where
  | s (v : String)
  | i (v : Int)
  | f (v : Rat)
  | b (v : Bool)
  | null
deriving DecidableEq, Repr

/-- Python int() applied to a float: truncation toward zero. -/
def pyInt (q : Rat) : Int := if q < 0 then ⌈q⌉ else ⌊q⌋

/-- Python str.strip(): drop leading and trailing whitespace (ASCII fragment). -/
def pyStrip (s : String) : String :=
  String.mk (((s.data.dropWhile Char.isWhitespace).reverse.dropWhile Char.isWhitespace).reverse)

/-- Python str.startswith(pre). -/
def strStartsWith (s pre : String) : Bool := pre.data.isPrefixOf s.data

/-- Drop the first n characters of a string. -/
def strDropChars (s : String) (n : Nat) : String := String.mk (s.data.drop n)

/-- Split a character list on a separator character (Python str.split(sep)). -/
def splitOnChar (sep : Char) : List Char → List (List Char)
  | [] => [[]]
  | c :: cs =>
    match splitOnChar sep cs with
    | [] => [[c]]
    | h :: t => if c = sep then [] :: h :: t else (c :: h) :: t

/-- Parse a nonempty all-digit character list as a natural number. -/
def digitsToNat? (cs : List Char) : Option Nat :=
  if cs ≠ [] && cs.all Char.isDigit then
    some (cs.foldl (fun n c => n * 10 + (c.toNat - '0'.toNat)) 0)
  else none

/-- The optional_text helper (app.py lines 191-193): trimmed text, or None when
the trimmed text is empty. -/
def optionalText (s : String) : Option String :=
  let t := pyStrip s
  if t = "" then none else some t

/-- Embed an optional string into a cell value, None becoming null. -/
def optVal : Option String → Value
  | none => Value.null
  | some s => Value.s s

/-- The canonical apartments schema, transcribed from APARTMENT_COLUMNS in app.py. -/
def APARTMENT_COLUMNS : List String := [
  "id", "transaction_type", "posted_date", "data_source", "scraped_date", "city", "area", "district", "address_line", "latitude", "longitude", "price_input_value", "price_input_unit", "price_lkr", "price_currency", "price_negotiable", "maintenance_fee_lkr", "maintenance_fee_per_sqft", "other_monthly_fees_lkr", "rent_frequency", "bedrooms", "bathrooms", "size_sqft", "furnished_status", "apartment_complex", "unit_type", "floor_number", "total_floors", "building_age_years", "completion_year", "is_brand_new", "occupancy_status", "project_name", "tower_name", "developer_name", "coc_available", "handover_status", "expected_completion_year", "has_living_room", "has_dining_area", "kitchen_type", "has_maids_room", "has_maids_bathroom", "has_servant_room", "balcony_count", "has_private_rooftop", "store_room_available", "parking_slots", "parking_type", "view_type", "is_high_floor", "is_corner_unit", "has_swimming_pool", "has_gym", "has_kids_play_area", "has_tennis_court", "has_basketball_court", "has_rooftop_area", "has_bbq_area", "has_clubhouse", "has_function_hall", "has_jogging_track", "has_spa", "has_sauna", "has_steam_room", "has_jacuzzi", "has_daycare_center", "has_library", "has_mini_market", "has_medical_center", "has_laundry_service", "has_salon", "has_shuttle_service", "has_community_lounge", "security_24_7", "has_cctv", "is_gated_community", "has_access_control", "has_backup_generator", "has_elevator", "elevator_count", "garbage_disposal_system", "central_gas_system", "hot_water_system", "internet_fiber_ready", "cable_tv_ready", "min_lease_months", "max_lease_months", "key_money_months", "advance_months", "security_deposit_months", "agent_fee_months", "electricity_separate", "water_separate", "maintenance_included_in_rent", "furnished_included_in_rent", "short_term_allowed", "short_term_min_nights", "title_deed_type", "bank_loan_eligible", "mortgage_status", "installment_plan_available", "is_resale", "foreigners_only", "families_only", "bachelors_allowed", "no_brokers", "pets_allowed", "smoking_allowed", "business_use_allowed", "notes"]

/-- Raw widget values read by build_apartment_form, one field per input control
(app.py lines 224-410).  Free-text widgets are carried raw; trimming happens in
the payload construction exactly where the source applies it.  Python floats are
modelled as exact rationals and dates as their isoformat strings. -/
structure FormInput where
  transaction_type : String := ""
  posted_date : String := ""
  data_source : String := ""
  scraped_date : Option String := some ""
  city : String := ""
  area : String := ""
  district : String := ""
  address_line : String := ""
  latitude : Rat := 0
  longitude : Rat := 0
  price_input_value : Rat := 0
  price_currency : String := ""
  price_negotiable : Bool := false
  maintenance_fee_lkr : Int := 0
  maintenance_fee_per_sqft : Rat := 0
  other_monthly_fees_lkr : Int := 0
  rent_frequency : Option String := none
  bedrooms : Int := 0
  bathrooms : Int := 0
  size_sqft : Int := 0
  furnished_status : String := ""
  apartment_complex : String := ""
  unit_type : String := ""
  floor_number : Int := 0
  total_floors : Int := 0
  building_age_years : Rat := 0
  completion_year : Int := 0
  is_brand_new : Bool := false
  occupancy_status : String := ""
  project_name : String := ""
  tower_name : String := ""
  developer_name : String := ""
  coc_available : Bool := false
  handover_status : String := ""
  expected_completion_year : Int := 0
  has_living_room : Bool := false
  has_dining_area : Bool := false
  kitchen_type : String := ""
  has_maids_room : Bool := false
  has_maids_bathroom : Bool := false
  has_servant_room : Bool := false
  balcony_count : Int := 0
  has_private_rooftop : Bool := false
  store_room_available : Bool := false
  parking_slots : Int := 0
  parking_type : String := ""
  view_type : String := ""
  is_high_floor : Bool := false
  is_corner_unit : Bool := false
  has_swimming_pool : Bool := false
  has_gym : Bool := false
  has_kids_play_area : Bool := false
  has_tennis_court : Bool := false
  has_basketball_court : Bool := false
  has_rooftop_area : Bool := false
  has_bbq_area : Bool := false
  has_clubhouse : Bool := false
  has_function_hall : Bool := false
  has_jogging_track : Bool := false
  has_spa : Bool := false
  has_sauna : Bool := false
  has_steam_room : Bool := false
  has_jacuzzi : Bool := false
  has_daycare_center : Bool := false
  has_library : Bool := false
  has_mini_market : Bool := false
  has_medical_center : Bool := false
  has_laundry_service : Bool := false
  has_salon : Bool := false
  has_shuttle_service : Bool := false
  has_community_lounge : Bool := false
  security_24_7 : Bool := false
  has_cctv : Bool := false
  is_gated_community : Bool := false
  has_access_control : Bool := false
  has_backup_generator : Bool := false
  has_elevator : Bool := false
  elevator_count : Int := 0
  garbage_disposal_system : Bool := false
  central_gas_system : Bool := false
  hot_water_system : Bool := false
  internet_fiber_ready : Bool := false
  cable_tv_ready : Bool := false
  min_lease_months : Int := 0
  max_lease_months : Int := 0
  key_money_months : Rat := 0
  advance_months : Rat := 0
  security_deposit_months : Rat := 0
  agent_fee_months : Rat := 0
  electricity_separate : Bool := false
  water_separate : Bool := false
  maintenance_included_in_rent : Bool := false
  furnished_included_in_rent : Bool := false
  short_term_allowed : Bool := false
  short_term_min_nights : Int := 0
  title_deed_type : String := ""
  bank_loan_eligible : Bool := false
  mortgage_status : String := ""
  installment_plan_available : Bool := false
  is_resale : Bool := false
  foreigners_only : Bool := false
  families_only : Bool := false
  bachelors_allowed : Bool := false
  no_brokers : Bool := false
  pets_allowed : Bool := false
  smoking_allowed : Bool := false
  business_use_allowed : Bool := false
  notes : String := ""

/-- The unit derivation (app.py line 246): lakhs for rent, millions otherwise. -/
def priceInputUnit (inp : FormInput) : String :=
  if inp.transaction_type = "rent" then "lakhs" else "millions"

/-- The multiplier derivation (app.py line 431): 100,000 for lakhs, 1,000,000 otherwise. -/
def priceMultiplier (inp : FormInput) : Rat :=
  if priceInputUnit inp = "lakhs" then 100000 else 1000000

/-- The derived price (app.py line 432): int(price_input_value * price_multiplier). -/
def priceLkr (inp : FormInput) : Int :=
  pyInt (inp.price_input_value * priceMultiplier inp)

/-- The payload dictionary built on a successful submission (app.py lines 434-545):
a fixed-key record, one field per dictionary entry, in source order. -/
structure Payload where
  transaction_type : Value
  posted_date : Value
  data_source : Value
  scraped_date : Value
  city : Value
  area : Value
  district : Value
  address_line : Value
  latitude : Value
  longitude : Value
  price_input_value : Value
  price_input_unit : Value
  price_lkr : Value
  price_currency : Value
  price_negotiable : Value
  maintenance_fee_lkr : Value
  maintenance_fee_per_sqft : Value
  other_monthly_fees_lkr : Value
  rent_frequency : Value
  bedrooms : Value
  bathrooms : Value
  size_sqft : Value
  furnished_status : Value
  apartment_complex : Value
  unit_type : Value
  floor_number : Value
  total_floors : Value
  building_age_years : Value
  completion_year : Value
  is_brand_new : Value
  occupancy_status : Value
  project_name : Value
  tower_name : Value
  developer_name : Value
  coc_available : Value
  handover_status : Value
  expected_completion_year : Value
  has_living_room : Value
  has_dining_area : Value
  kitchen_type : Value
  has_maids_room : Value
  has_maids_bathroom : Value
  has_servant_room : Value
  balcony_count : Value
  has_private_rooftop : Value
  store_room_available : Value
  parking_slots : Value
  parking_type : Value
  view_type : Value
  is_high_floor : Value
  is_corner_unit : Value
  has_swimming_pool : Value
  has_gym : Value
  has_kids_play_area : Value
  has_tennis_court : Value
  has_basketball_court : Value
  has_rooftop_area : Value
  has_bbq_area : Value
  has_clubhouse : Value
  has_function_hall : Value
  has_jogging_track : Value
  has_spa : Value
  has_sauna : Value
  has_steam_room : Value
  has_jacuzzi : Value
  has_daycare_center : Value
  has_library : Value
  has_mini_market : Value
  has_medical_center : Value
  has_laundry_service : Value
  has_salon : Value
  has_shuttle_service : Value
  has_community_lounge : Value
  security_24_7 : Value
  has_cctv : Value
  is_gated_community : Value
  has_access_control : Value
  has_backup_generator : Value
  has_elevator : Value
  elevator_count : Value
  garbage_disposal_system : Value
  central_gas_system : Value
  hot_water_system : Value
  internet_fiber_ready : Value
  cable_tv_ready : Value
  min_lease_months : Value
  max_lease_months : Value
  key_money_months : Value
  advance_months : Value
  security_deposit_months : Value
  agent_fee_months : Value
  electricity_separate : Value
  water_separate : Value
  maintenance_included_in_rent : Value
  furnished_included_in_rent : Value
  short_term_allowed : Value
  short_term_min_nights : Value
  title_deed_type : Value
  bank_loan_eligible : Value
  mortgage_status : Value
  installment_plan_available : Value
  is_resale : Value
  foreigners_only : Value
  families_only : Value
  bachelors_allowed : Value
  no_brokers : Value
  pets_allowed : Value
  smoking_allowed : Value
  business_use_allowed : Value
  notes : Value
deriving DecidableEq

/-- The payload construction of build_apartment_form (app.py lines 431-547),
entry by entry.  optionalText mirrors the optional_text helper applied at widget
read time; price_input_unit, price_lkr, price_currency and notes mirror their
inline expressions in the source. -/
def buildPayload (inp : FormInput) : Payload := {
  transaction_type := .s inp.transaction_type
  posted_date := .s inp.posted_date
  data_source := optVal (optionalText inp.data_source)
  scraped_date := match inp.scraped_date with | some d => .s d | none => .null
  city := optVal (optionalText inp.city)
  area := optVal (optionalText inp.area)
  district := optVal (optionalText inp.district)
  address_line := optVal (optionalText inp.address_line)
  latitude := .f inp.latitude
  longitude := .f inp.longitude
  price_input_value := .f inp.price_input_value
  price_input_unit := .s (priceInputUnit inp)
  price_lkr := .i (priceLkr inp)
  price_currency := .s (if inp.price_currency = "" then "LKR" else inp.price_currency)
  price_negotiable := .b inp.price_negotiable
  maintenance_fee_lkr := .i inp.maintenance_fee_lkr
  maintenance_fee_per_sqft := .f inp.maintenance_fee_per_sqft
  other_monthly_fees_lkr := .i inp.other_monthly_fees_lkr
  rent_frequency := optVal inp.rent_frequency
  bedrooms := .i inp.bedrooms
  bathrooms := .i inp.bathrooms
  size_sqft := .i inp.size_sqft
  furnished_status := .s inp.furnished_status
  apartment_complex := optVal (optionalText inp.apartment_complex)
  unit_type := optVal (optionalText inp.unit_type)
  floor_number := .i inp.floor_number
  total_floors := .i inp.total_floors
  building_age_years := .f inp.building_age_years
  completion_year := .i inp.completion_year
  is_brand_new := .b inp.is_brand_new
  occupancy_status := optVal (optionalText inp.occupancy_status)
  project_name := optVal (optionalText inp.project_name)
  tower_name := optVal (optionalText inp.tower_name)
  developer_name := optVal (optionalText inp.developer_name)
  coc_available := .b inp.coc_available
  handover_status := optVal (optionalText inp.handover_status)
  expected_completion_year := .i inp.expected_completion_year
  has_living_room := .b inp.has_living_room
  has_dining_area := .b inp.has_dining_area
  kitchen_type := optVal (optionalText inp.kitchen_type)
  has_maids_room := .b inp.has_maids_room
  has_maids_bathroom := .b inp.has_maids_bathroom
  has_servant_room := .b inp.has_servant_room
  balcony_count := .i inp.balcony_count
  has_private_rooftop := .b inp.has_private_rooftop
  store_room_available := .b inp.store_room_available
  parking_slots := .i inp.parking_slots
  parking_type := optVal (optionalText inp.parking_type)
  view_type := optVal (optionalText inp.view_type)
  is_high_floor := .b inp.is_high_floor
  is_corner_unit := .b inp.is_corner_unit
  has_swimming_pool := .b inp.has_swimming_pool
  has_gym := .b inp.has_gym
  has_kids_play_area := .b inp.has_kids_play_area
  has_tennis_court := .b inp.has_tennis_court
  has_basketball_court := .b inp.has_basketball_court
  has_rooftop_area := .b inp.has_rooftop_area
  has_bbq_area := .b inp.has_bbq_area
  has_clubhouse := .b inp.has_clubhouse
  has_function_hall := .b inp.has_function_hall
  has_jogging_track := .b inp.has_jogging_track
  has_spa := .b inp.has_spa
  has_sauna := .b inp.has_sauna
  has_steam_room := .b inp.has_steam_room
  has_jacuzzi := .b inp.has_jacuzzi
  has_daycare_center := .b inp.has_daycare_center
  has_library := .b inp.has_library
  has_mini_market := .b inp.has_mini_market
  has_medical_center := .b inp.has_medical_center
  has_laundry_service := .b inp.has_laundry_service
  has_salon := .b inp.has_salon
  has_shuttle_service := .b inp.has_shuttle_service
  has_community_lounge := .b inp.has_community_lounge
  security_24_7 := .b inp.security_24_7
  has_cctv := .b inp.has_cctv
  is_gated_community := .b inp.is_gated_community
  has_access_control := .b inp.has_access_control
  has_backup_generator := .b inp.has_backup_generator
  has_elevator := .b inp.has_elevator
  elevator_count := .i inp.elevator_count
  garbage_disposal_system := .b inp.garbage_disposal_system
  central_gas_system := .b inp.central_gas_system
  hot_water_system := .b inp.hot_water_system
  internet_fiber_ready := .b inp.internet_fiber_ready
  cable_tv_ready := .b inp.cable_tv_ready
  min_lease_months := .i inp.min_lease_months
  max_lease_months := .i inp.max_lease_months
  key_money_months := .f inp.key_money_months
  advance_months := .f inp.advance_months
  security_deposit_months := .f inp.security_deposit_months
  agent_fee_months := .f inp.agent_fee_months
  electricity_separate := .b inp.electricity_separate
  water_separate := .b inp.water_separate
  maintenance_included_in_rent := .b inp.maintenance_included_in_rent
  furnished_included_in_rent := .b inp.furnished_included_in_rent
  short_term_allowed := .b inp.short_term_allowed
  short_term_min_nights := .i inp.short_term_min_nights
  title_deed_type := optVal (optionalText inp.title_deed_type)
  bank_loan_eligible := .b inp.bank_loan_eligible
  mortgage_status := optVal (optionalText inp.mortgage_status)
  installment_plan_available := .b inp.installment_plan_available
  is_resale := .b inp.is_resale
  foreigners_only := .b inp.foreigners_only
  families_only := .b inp.families_only
  bachelors_allowed := .b inp.bachelors_allowed
  no_brokers := .b inp.no_brokers
  pets_allowed := .b inp.pets_allowed
  smoking_allowed := .b inp.smoking_allowed
  business_use_allowed := .b inp.business_use_allowed
  notes := if inp.notes = "" then .null else .s (pyStrip inp.notes) }

/-- The four validation messages collected by build_apartment_form
(app.py lines 415-423), in append order. -/
def validationErrors (inp : FormInput) : List String :=
  (if inp.price_input_value ≤ 0 then ["Price must be greater than 0."] else []) ++
  (if inp.bedrooms ≤ 0 then ["Bedrooms must be greater than 0."] else []) ++
  (if inp.bathrooms ≤ 0 then ["Bathrooms must be greater than 0."] else []) ++
  (if inp.size_sqft ≤ 0 then ["Size (sqft) must be greater than 0."] else [])

/-- The observable outcome of build_apartment_form: the returned value
(payload or None) together with the validation messages displayed. -/
structure BuildOutcome where
  payload : Option Payload
  errors : List String

/-- build_apartment_form (app.py lines 221-547): None before submission; on
submission, either the displayed error list with a None return, or the payload. -/
def buildApartmentForm (submitted : Bool) (inp : FormInput) : BuildOutcome :=
  if ¬ submitted then ⟨none, []⟩
  else
    let errors := validationErrors inp
    if errors.isEmpty then ⟨some (buildPayload inp), []⟩
    else ⟨none, errors⟩

/-- The Python return value of build_apartment_form alone (its Optional[Dict]). -/
def buildReturn (submitted : Bool) (inp : FormInput) : Option Payload :=
  (buildApartmentForm submitted inp).payload

/-- The persistence calls issued by page_add_apartment (app.py lines 592-604):
insert_apartment is invoked exactly on a non-None builder return. -/
def insertedPayloads (submitted : Bool) (inp : FormInput) : List Payload :=
  match buildReturn submitted inp with
  | none => []
  | some p => [p]

/-- The column list of the insert statement (app.py line 179). -/
def insertColumns : List String := APARTMENT_COLUMNS.filter (fun c => c ≠ "id")

/-- The SQL text assembled by insert_apartment from the static column list. -/
def insertQueryText : String :=
  "INSERT INTO apartments (" ++ String.intercalate ", " insertColumns ++
    ") VALUES (" ++ String.intercalate ", " (insertColumns.map (fun c => ":" ++ c)) ++ ")"

/-- insert_apartment (app.py lines 176-186): builds the statement text from the
column constant and executes it with the payload passed separately as the bind
parameters.  The result models the pair handed to conn.execute. -/
def insertApartment (payload : Payload) : String × Payload :=
  let columns := APARTMENT_COLUMNS.filter (fun c => c ≠ "id")
  let colNamesText := String.intercalate ", " columns
  let placeholders := String.intercalate ", " (columns.map (fun c => ":" ++ c))
  ("INSERT INTO apartments (" ++ colNamesText ++ ") VALUES (" ++ placeholders ++ ")", payload)

/-! Configuration: URI normalization and host/port overrides (app_core/config.py). -/

/-- Python truthiness of an optional string (an unset environment variable is
None, an empty one is falsy). -/
def pyTruthy : Option String → Bool
  | none => false
  | some s => s != ""

/-- _normalize_postgres_uri (config.py lines 45-58).  The source guards each
replace(..., 1) with startswith, so the first occurrence replaced is the prefix. -/
def normalizePostgresUri (uri : String) : String :=
  if strStartsWith uri "postgresql+" then uri
  else
    let uri := if strStartsWith uri "postgres://" then
      "postgresql://" ++ strDropChars uri "postgres://".length else uri
    if strStartsWith uri "postgresql://" then
      "postgresql+psycopg://" ++ strDropChars uri "postgresql://".length
    else uri

/-- Split a character list at the first occurrence of a pattern, returning the
parts before and after it. -/
def splitOnceSub (pat : List Char) : List Char → Option (List Char × List Char)
  | [] => if pat.isPrefixOf ([] : List Char) then some ([], []) else none
  | c :: rest =>
    if pat.isPrefixOf (c :: rest) then some ([], (c :: rest).drop pat.length)
    else (splitOnceSub pat rest).map (fun p => (c :: p.1, p.2))

/-- The components of a database URL as sqlalchemy make_url exposes them here:
scheme, optional userinfo (kept opaque), host, optional numeric port, and the
remaining path/query tail. -/
structure DbUrl where
  scheme : String
  userinfo : Option String
  host : String
  port : Option Nat
  tail : String
deriving DecidableEq, Repr

/-- Parse a URL of the common form scheme://userinfo@host:port/tail, the shape
make_url handles for the database URIs used here (bracketed IPv6 hosts and
malformed URIs, which make_url treats specially or rejects, are out of scope:
the claims settled below never reach the parse). -/
def parseDbUrl (uri : String) : DbUrl :=
  match splitOnceSub "://".toList uri.toList with
  | none => { scheme := "", userinfo := none, host := "", port := none, tail := uri }
  | some (schemeCs, rest) =>
    let authTail : List Char × List Char :=
      match splitOnceSub ['/'] rest with
      | none => (rest, [])
      | some (a, t) => (a, '/' :: t)
    let userHp : Option String × List Char :=
      match splitOnceSub ['@'] authTail.1 with
      | none => (none, authTail.1)
      | some (u, hp) => (some (String.mk u), hp)
    let hostPort : List Char × Option Nat :=
      match splitOnceSub [':'] userHp.2 with
      | none => (userHp.2, none)
      | some (h, p) => (h, digitsToNat? p)
    { scheme := String.mk schemeCs, userinfo := userHp.1,
      host := String.mk hostPort.1, port := hostPort.2,
      tail := String.mk authTail.2 }

/-- url.render_as_string(hide_password=False): reassemble the URL. -/
def renderDbUrl (u : DbUrl) : String :=
  u.scheme ++ "://" ++
    (match u.userinfo with | none => "" | some ui => ui ++ "@") ++
    u.host ++
    (match u.port with | none => "" | some p => ":" ++ toString p) ++
    u.tail

/-- _apply_overrides (config.py lines 61-87): when DATABASE_IPV4_HOST is not
truthy the URI is returned untouched; otherwise the host is replaced and, only
then, a truthy DATABASE_IPV4_PORT also replaces the port.  int() on a
non-numeric port would raise in Python; that error path is modelled as port 0. -/
def applyOverrides (ipv4Host ipv4Port : Option String) (uri : String) : String :=
  if pyTruthy ipv4Host = false then uri
  else
    let url := parseDbUrl uri
    let url := { url with host := ipv4Host.getD "" }
    let url := if pyTruthy ipv4Port then
      { url with port := some ((digitsToNat? (ipv4Port.getD "").data).getD 0) } else url
    renderDbUrl url

/-- get_database_uri (config.py lines 30-38) applied to a raw URI value already
resolved from secrets or the environment: normalize the scheme, then apply the
host/port overrides. -/
def resolveDatabaseUri (ipv4Host ipv4Port : Option String) (raw : String) : String :=
  applyOverrides ipv4Host ipv4Port (normalizePostgresUri raw)

/-! Table renderer: filters (app.py lines 555-561 and app_core/table.py). -/

/-- One row as the filter stage sees it: the two filtered columns (nullable, as
loaded from the store) plus a tag standing for the rest of the row. -/
structure ViewRow where
  transaction_type : Option String
  district : Option String
  tag : Nat
deriving DecidableEq, Repr

/-- A compiled pattern token of the regex fragment exercised by the district
filter: an ordinary character or the dot wildcard. -/
inductive RTok where
  | lit (c : Char)
  | dot
deriving DecidableEq, Repr

/-- The characters the Python re module treats as special in a pattern. -/
def isRegexMeta (c : Char) : Bool :=
  c = '.' || c = '^' || c = '$' || c = '*' || c = '+' || c = '?' ||
  c = '\x7b' || c = '\x7d' || c = '[' || c = ']' || c = '(' || c = ')' ||
  c = '|' || c = '\\'

/-- Compile a pattern string over the modelled regex fragment: a dot becomes
the any-character wildcard, every other character matches literally.  The
model is exact only on patterns whose characters are ordinary (no regex
metacharacter) or the dot; theorems about other patterns must not rely on it. -/
def compileRe (pat : String) : List RTok :=
  pat.toList.map (fun c => if c = '.' then RTok.dot else RTok.lit c)

/-- Case-insensitive single-character match of a token (ASCII folding). -/
def tokMatches (t : RTok) (c : Char) : Bool :=
  match t with
  | RTok.dot => true
  | RTok.lit l => l.toLower == c.toLower

/-- Match a whole token list against a prefix of the text. -/
def matchHere : List RTok → List Char → Bool
  | [], _ => true
  | _ :: _, [] => false
  | t :: ts, c :: cs => tokMatches t c && matchHere ts cs

/-- Search: does the token list match at some position of the text. -/
def reSearch (toks : List RTok) : List Char → Bool
  | [] => matchHere toks []
  | c :: cs => matchHere toks (c :: cs) || reSearch toks cs

/-- Series.str.contains(pat, case=False) as used on the district column: with
the pandas default regex=True this is a case-insensitive regular-expression
search, modelled over the compiled fragment. -/
def strContainsCI (pat s : String) : Bool := reSearch (compileRe pat) s.toList

/-- Case-insensitive match of a literal pattern against a prefix of the text. -/
def litHere : List Char → List Char → Bool
  | [], _ => true
  | _ :: _, [] => false
  | p :: ps, c :: cs => (p.toLower == c.toLower) && litHere ps cs

/-- Case-insensitive literal substring search. -/
def substrAux (p : List Char) : List Char → Bool
  | [] => litHere p []
  | c :: cs => litHere p (c :: cs) || substrAux p cs

/-- Case-insensitive literal substring containment: the reading the spec gives
of the district filter. -/
def substrCI (pat s : String) : Bool := substrAux pat.toList s.toList

/-- The filter stage of render_table (app.py lines 555-561): an exact-match
transaction-type filter unless "All" is selected (a null value never equals the
selected category), then, for a truthy entered text, the district filter with
nulls filled as the empty string. -/
def applyFilters (filterType districtFilter : String) (df : List ViewRow) : List ViewRow :=
  let df := if filterType ≠ "All" then
    df.filter (fun r => r.transaction_type == some filterType) else df
  if districtFilter ≠ "" then
    df.filter (fun r => strContainsCI districtFilter (r.district.getD "")) else df

/-- Modelled from the spec: the district filter as the spec words it, keeping
exactly the rows whose district (null as empty string) contains the entered
text as a case-insensitive substring.  Stated for comparison with applyFilters. -/
def districtSubstrFilterSpec (districtFilter : String) (df : List ViewRow) : List ViewRow :=
  df.filter (fun r => substrCI districtFilter (r.district.getD ""))

/-! Table renderer: the posted_date sort (app.py lines 573-575). -/

/-- A row entering the sort: the raw posted_date string plus a tag standing for
the rest of the row. -/
structure SRow where
  posted_date : String
  tag : Nat
deriving DecidableEq, Repr

/-- A row after pd.to_datetime(errors="coerce") overwrote the posted_date
column: the parsed date as a comparable key, or null for an unparsable value. -/
structure PRow where
  posted_date : Option Nat
  tag : Nat
deriving DecidableEq, Repr

instance : Inhabited PRow := ⟨⟨none, 0⟩⟩

/-- Days of a month in the proleptic Gregorian calendar. -/
def monthDays (y m : Nat) : Nat :=
  if m = 2 then (if (y % 4 = 0 ∧ y % 100 ≠ 0) ∨ y % 400 = 0 then 29 else 28)
  else if m = 4 ∨ m = 6 ∨ m = 9 ∨ m = 11 then 30 else 31

/-- pd.to_datetime on one cell, for year-month-day strings as the builder
stores them (posted_date is always date.isoformat()): the date as the key
y*10000 + m*100 + d when the string is a valid calendar date, null otherwise.
Further pandas-recognized formats are outside the modelled fragment. -/
def parsePostedDate (s : String) : Option Nat :=
  match splitOnChar '-' s.data with
  | [ys, ms, ds] =>
    match digitsToNat? ys, digitsToNat? ms, digitsToNat? ds with
    | some y, some m, some d =>
      if 1 ≤ m ∧ m ≤ 12 ∧ 1 ≤ d ∧ d ≤ monthDays y m then
        some (y * 10000 + m * 100 + d)
      else none
    | _, _, _ => none
  | _ => none

/-- The coercion stage: parse every posted_date, null on failure. -/
def parseRows (input : List SRow) : List PRow :=
  input.map (fun r => ⟨parsePostedDate r.posted_date, r.tag⟩)

/-- Relational model of df.sort_values(by="posted_date", ascending=False) after
the coercion, following what pandas nargsort guarantees with the default
kind="quicksort" and na_position="last": some permutation of the non-null-key
rows arranged in non-increasing key order comes first (the quicksort contract
fixes no order among equal keys), and the null-key rows are appended at the end
in their original order. -/
def sortNewestRel (input : List SRow) (output : List PRow) : Prop :=
  ∃ front : List PRow,
    output = front ++ (parseRows input).filter (fun r => r.posted_date.isNone) ∧
    front.Perm ((parseRows input).filter (fun r => r.posted_date.isSome)) ∧
    front.Pairwise (fun a b => b.posted_date.getD 0 ≤ a.posted_date.getD 0)

/-- Tie stability check: every pair of rows with equal keys keeps its input
order in the output (rows are located by their tag). -/
def tiesPreserved (parsed output : List PRow) : Bool :=
  (List.range parsed.length).all fun i =>
    (List.range parsed.length).all fun j =>
      !(decide (i < j)) ||
      ((parsed.getD i default).posted_date != (parsed.getD j default).posted_date) ||
      (match output.findIdx? (fun r => r.tag == (parsed.getD i default).tag),
             output.findIdx? (fun r => r.tag == (parsed.getD j default).tag) with
       | some oi, some oj => decide (oi < oj)
       | _, _ => false)

/-! Table renderer: column reconciliation before display (app.py lines 583-587). -/

/-- A dataframe for the reconciliation stage: a row count and named columns. -/
structure Df where
  nrows : Nat
  cols : List (String × List Value)

/-- The column labels of a dataframe. -/
def colNames (df : Df) : List String := df.cols.map Prod.fst

/-- The injection loop: every canonical column absent from the dataframe is
appended as an all-null column (df[col] = None), in canonical order. -/
def injectMissing (df : Df) : Df :=
  let missing := APARTMENT_COLUMNS.filter (fun c => !(colNames df).contains c)
  { df with cols := df.cols ++ missing.map (fun c => (c, List.replicate df.nrows Value.null)) }

/-- The final selection df[APARTMENT_COLUMNS]: the canonical columns in
canonical order (after injection every canonical name is present). -/
def selectCanonical (df : Df) : Df :=
  { nrows := df.nrows,
    cols := APARTMENT_COLUMNS.map (fun c => (c, (df.cols.lookup c).getD [])) }

/-- The whole reconciliation performed by render_table before display. -/
def reconcile (df : Df) : Df := selectCanonical (injectMissing df)

/-! Concrete inputs and spec-side definitions used by the claim theorems. -/

/-- A concrete valid rent submission used to witness C1. -/
def c1Input : FormInput :=
  { transaction_type := "rent", price_input_value := 2, bedrooms := 2,
    bathrooms := 1, size_sqft := 800 }

/-- A concrete submission violating all four numeric rules, witnessing C2. -/
def c2Input : FormInput := {}

/-- A concrete rejected submission for C3: all-default input, whose required
numeric fields are zero, so a submission of it is rejected. -/
def c3Input : FormInput := {}

/-- The normalization the spec asserts for a free-text optional field: the
stored value is the trimmed text, and an empty trim result becomes null, so
the empty string is never stored. -/
def TrimNorm (raw : String) (v : Value) : Prop :=
  (pyStrip raw = "" → v = Value.null) ∧ (pyStrip raw ≠ "" → v = Value.s (pyStrip raw))

/-- C4 counterexample input: a valid submission whose notes field is
whitespace only. -/
def c4Input : FormInput :=
  { price_input_value := 1, bedrooms := 1, bathrooms := 1, size_sqft := 1,
    notes := "   " }

/-- A concrete valid submission with a whitespace-only district and non-empty
notes, used to witness the amended C4. -/
def c4WInput : FormInput :=
  { price_input_value := 1, bedrooms := 1, bathrooms := 1, size_sqft := 1,
    district := "   ", notes := " kept " }

/-- Modelled from the spec (section 3): price_lkr as the spec words it, the
rounding of price_input_value times the unit multiplier.  Stated for
comparison with the code, which truncates. -/
def priceLkrRoundSpec (value : Rat) (unit : String) : Int :=
  round (value * (if unit = "lakhs" then (100000 : Rat) else 1000000))

/-- C5 counterexample input: a valid rent submission whose price is 1.500007
lakhs, so the exact product is 150000.7. -/
def c5Input : FormInput :=
  { transaction_type := "rent", price_input_value := 1500007/1000000,
    bedrooms := 1, bathrooms := 1, size_sqft := 1 }

/-- A concrete valid sale submission used to witness the amended C5. -/
def c5WInput : FormInput :=
  { transaction_type := "sale", price_input_value := 3, bedrooms := 1,
    bathrooms := 2, size_sqft := 900 }

/-- C6 input: the records of the spec example plus a second record tied on the
latest date, with tags identifying the rows. -/
def c6Input : List SRow :=
  [⟨"2024-01-01", 0⟩, ⟨"bad-date", 1⟩, ⟨"2024-06-01", 2⟩, ⟨"2024-06-01", 3⟩]

/-- An output for c6Input in which the tied pair appears in reversed input
order; it satisfies everything the sort guarantees. -/
def c6Swapped : List PRow :=
  [⟨some 20240601, 3⟩, ⟨some 20240601, 2⟩, ⟨some 20240101, 0⟩, ⟨none, 1⟩]

/-- An output for c6Input in which the tied pair keeps its input order. -/
def c6Sorted : List PRow :=
  [⟨some 20240601, 2⟩, ⟨some 20240601, 3⟩, ⟨some 20240101, 0⟩, ⟨none, 1⟩]

/-- C7 counterexample row set: one rent record in district Colombo. -/
def c7Rows : List ViewRow := [⟨some "rent", some "Colombo", 0⟩]

/-- C7 witness row set: mixed categories, one null row. -/
def c7WRows : List ViewRow :=
  [⟨some "rent", some "Colombo 7", 0⟩, ⟨some "sale", some "Kandy", 1⟩,
    ⟨none, none, 2⟩]

/-- C8 witness dataframe: one canonical column with data, one extra
non-canonical column, two rows. -/
def c8Df : Df :=
  ⟨2, [("city", [Value.s "Colombo", Value.s "Kandy"]),
       ("junk", [Value.null, Value.null])]⟩

/-! Helper lemmas about the builder. -/

/-- Truncation toward zero agrees with the floor on nonnegative rationals. -/
theorem pyInt_eq_floor_of_nonneg (q : Rat) (h : 0 ≤ q) : pyInt q = ⌊q⌋ := by
  unfold pyInt
  rw [if_neg (not_lt.mpr h)]

/-- When the four required numbers are positive, no validation message is produced. -/
theorem validationErrors_eq_nil (inp : FormInput)
    (hp : 0 < inp.price_input_value) (hbed : 0 < inp.bedrooms)
    (hbath : 0 < inp.bathrooms) (hsz : 0 < inp.size_sqft) :
    validationErrors inp = [] := by
  unfold validationErrors
  rw [if_neg (not_le.mpr hp), if_neg (not_le.mpr hbed),
    if_neg (not_le.mpr hbath), if_neg (not_le.mpr hsz)]
  rfl

/-- A submission with no validation message returns the built payload. -/
theorem buildReturn_of_valid (inp : FormInput) (h : validationErrors inp = []) :
    buildReturn true inp = some (buildPayload inp) := by
  simp [buildReturn, buildApartmentForm, h]

/-! Claim C1. -/

/-- C1: for every submitted form input that passes validation, the builder sets
price_input_unit from transaction_type alone (rent gives unit "lakhs" and
multiplier 100,000; sale gives unit "millions" and multiplier 1,000,000) and
sets price_lkr to the floor of price_input_value times that multiplier, which
for the positive values that pass validation is exactly the int() truncation
toward zero performed by the code. -/
theorem C1_price_unit_and_floor (inp : FormInput)
    (hp : 0 < inp.price_input_value) (hbed : 0 < inp.bedrooms)
    (hbath : 0 < inp.bathrooms) (hsz : 0 < inp.size_sqft) :
    ∃ p : Payload, buildReturn true inp = some p ∧
      (inp.transaction_type = "rent" →
        p.price_input_unit = Value.s "lakhs" ∧
        p.price_lkr = Value.i ⌊inp.price_input_value * 100000⌋) ∧
      (inp.transaction_type = "sale" →
        p.price_input_unit = Value.s "millions" ∧
        p.price_lkr = Value.i ⌊inp.price_input_value * 1000000⌋) := by
  refine ⟨buildPayload inp,
    buildReturn_of_valid inp (validationErrors_eq_nil inp hp hbed hbath hsz), ?_, ?_⟩
  · intro hr
    have hu : priceInputUnit inp = "lakhs" := by simp [priceInputUnit, hr]
    have hm : priceMultiplier inp = 100000 := by simp [priceMultiplier, hu]
    refine ⟨?_, ?_⟩
    · show Value.s (priceInputUnit inp) = Value.s "lakhs"
      rw [hu]
    · show Value.i (priceLkr inp) = Value.i ⌊inp.price_input_value * 100000⌋
      rw [priceLkr, hm, pyInt_eq_floor_of_nonneg]
      positivity
  · intro hr
    have hu : priceInputUnit inp = "millions" := by simp [priceInputUnit, hr]
    have hm : priceMultiplier inp = 1000000 := by simp [priceMultiplier, hu]
    refine ⟨?_, ?_⟩
    · show Value.s (priceInputUnit inp) = Value.s "millions"
      rw [hu]
    · show Value.i (priceLkr inp) = Value.i ⌊inp.price_input_value * 1000000⌋
      rw [priceLkr, hm, pyInt_eq_floor_of_nonneg]
      positivity

/-- C1 witness: the C1 theorem applied to a concrete valid rent submission. -/
theorem C1_witness :
    ((0 : Rat) < c1Input.price_input_value ∧ (0 : Int) < c1Input.bedrooms ∧
      (0 : Int) < c1Input.bathrooms ∧ (0 : Int) < c1Input.size_sqft) ∧
    (∃ p : Payload, buildReturn true c1Input = some p ∧
      (c1Input.transaction_type = "rent" →
        p.price_input_unit = Value.s "lakhs" ∧
        p.price_lkr = Value.i ⌊c1Input.price_input_value * 100000⌋) ∧
      (c1Input.transaction_type = "sale" →
        p.price_input_unit = Value.s "millions" ∧
        p.price_lkr = Value.i ⌊c1Input.price_input_value * 1000000⌋)) :=
  ⟨⟨by decide, by decide, by decide, by decide⟩,
    C1_price_unit_and_floor c1Input (by decide) (by decide) (by decide) (by decide)⟩

/-! Claim C2. -/

/-- C2: for every submitted input with one or more of bedrooms, bathrooms,
size_sqft, price_input_value non-positive, all four checks run before
reporting (each message present exactly when its rule is violated, and the
message count equals the violation count), the builder returns the no-payload
result with a non-empty error list, and the caller makes no insert call. -/
theorem C2_batch_validation (inp : FormInput)
    (h : inp.price_input_value ≤ 0 ∨ inp.bedrooms ≤ 0 ∨
      inp.bathrooms ≤ 0 ∨ inp.size_sqft ≤ 0) :
    (buildApartmentForm true inp).payload = none ∧
    (buildApartmentForm true inp).errors ≠ [] ∧
    ("Price must be greater than 0." ∈ (buildApartmentForm true inp).errors ↔
      inp.price_input_value ≤ 0) ∧
    ("Bedrooms must be greater than 0." ∈ (buildApartmentForm true inp).errors ↔
      inp.bedrooms ≤ 0) ∧
    ("Bathrooms must be greater than 0." ∈ (buildApartmentForm true inp).errors ↔
      inp.bathrooms ≤ 0) ∧
    ("Size (sqft) must be greater than 0." ∈ (buildApartmentForm true inp).errors ↔
      inp.size_sqft ≤ 0) ∧
    (buildApartmentForm true inp).errors.length =
      ((if inp.price_input_value ≤ 0 then 1 else 0) +
        (if inp.bedrooms ≤ 0 then 1 else 0) +
        (if inp.bathrooms ≤ 0 then 1 else 0) +
        (if inp.size_sqft ≤ 0 then 1 else 0)) ∧
    insertedPayloads true inp = [] := by
  have hne : validationErrors inp ≠ [] := by
    unfold validationErrors
    rcases h with h | h | h | h <;> simp [h]
  have hfalse : (validationErrors inp).isEmpty = false := by
    cases hE : (validationErrors inp).isEmpty
    · rfl
    · exact absurd (List.isEmpty_iff.mp hE) hne
  have herr : (buildApartmentForm true inp).errors = validationErrors inp := by
    simp [buildApartmentForm, hfalse]
  have hpay : (buildApartmentForm true inp).payload = none := by
    simp [buildApartmentForm, hfalse]
  refine ⟨hpay, by rw [herr]; exact hne, ?_⟩
  rw [herr]
  have hmem : ∀ m : String, m ∈ validationErrors inp ↔
      (m = "Price must be greater than 0." ∧ inp.price_input_value ≤ 0) ∨
      (m = "Bedrooms must be greater than 0." ∧ inp.bedrooms ≤ 0) ∨
      (m = "Bathrooms must be greater than 0." ∧ inp.bathrooms ≤ 0) ∨
      (m = "Size (sqft) must be greater than 0." ∧ inp.size_sqft ≤ 0) := by
    intro m
    unfold validationErrors
    by_cases h1 : inp.price_input_value ≤ 0 <;> by_cases h2 : inp.bedrooms ≤ 0 <;>
      by_cases h3 : inp.bathrooms ≤ 0 <;> by_cases h4 : inp.size_sqft ≤ 0 <;>
      simp [h1, h2, h3, h4]
  refine ⟨?_, ?_, ?_, ?_, ?_, ?_⟩
  · rw [hmem]; simp
  · rw [hmem]; simp
  · rw [hmem]; simp
  · rw [hmem]; simp
  · unfold validationErrors
    by_cases h1 : inp.price_input_value ≤ 0 <;> by_cases h2 : inp.bedrooms ≤ 0 <;>
      by_cases h3 : inp.bathrooms ≤ 0 <;> by_cases h4 : inp.size_sqft ≤ 0 <;>
      simp [h1, h2, h3, h4]
  · simp [insertedPayloads, buildReturn, hpay]

/-- C2 witness: the C2 theorem applied to a concrete all-defaults submission,
whose four required numbers are all zero. -/
theorem C2_witness :
    (c2Input.price_input_value ≤ 0 ∨ c2Input.bedrooms ≤ 0 ∨
      c2Input.bathrooms ≤ 0 ∨ c2Input.size_sqft ≤ 0) ∧
    ((buildApartmentForm true c2Input).payload = none ∧
    (buildApartmentForm true c2Input).errors ≠ [] ∧
    ("Price must be greater than 0." ∈ (buildApartmentForm true c2Input).errors ↔
      c2Input.price_input_value ≤ 0) ∧
    ("Bedrooms must be greater than 0." ∈ (buildApartmentForm true c2Input).errors ↔
      c2Input.bedrooms ≤ 0) ∧
    ("Bathrooms must be greater than 0." ∈ (buildApartmentForm true c2Input).errors ↔
      c2Input.bathrooms ≤ 0) ∧
    ("Size (sqft) must be greater than 0." ∈ (buildApartmentForm true c2Input).errors ↔
      c2Input.size_sqft ≤ 0) ∧
    (buildApartmentForm true c2Input).errors.length =
      ((if c2Input.price_input_value ≤ 0 then 1 else 0) +
        (if c2Input.bedrooms ≤ 0 then 1 else 0) +
        (if c2Input.bathrooms ≤ 0 then 1 else 0) +
        (if c2Input.size_sqft ≤ 0 then 1 else 0)) ∧
    insertedPayloads true c2Input = []) :=
  ⟨Or.inl (by decide), C2_batch_validation c2Input (Or.inl (by decide))⟩

/-! Claim C3. -/

/-- C3 counterexample: a rejected submission returns exactly the same value
(None) as no submission at all, so the returned result of the builder does not
distinguish the rejected outcome from the not-submitted outcome; the rejection
is visible only in the displayed error messages. -/
theorem C3_counterexample :
    buildReturn true c3Input = buildReturn false c3Input ∧
    buildReturn true c3Input = none ∧
    (buildApartmentForm true c3Input).errors ≠ [] :=
  ⟨by decide, by decide, by decide⟩

/-- C3 amended: the value returned by the builder distinguishes acceptance (payload
present exactly when a submission passes validation) from the other two
outcomes, but a rejected submission returns the same None as no submission;
rejection is signalled separately by a non-empty displayed error list, so only
the pair (returned value, displayed errors) separates all three outcomes. -/
theorem C3_amended_outcomes (inp : FormInput) :
    (buildReturn false inp = none ∧ (buildApartmentForm false inp).errors = []) ∧
    (buildReturn true inp = none ↔ validationErrors inp ≠ []) ∧
    ((buildApartmentForm true inp).errors = validationErrors inp) ∧
    (buildReturn true inp = some (buildPayload inp) ↔ validationErrors inp = []) := by
  cases hE : (validationErrors inp).isEmpty
  · have hne : validationErrors inp ≠ [] := by
      intro hnil
      rw [hnil] at hE
      exact absurd hE (by decide)
    refine ⟨⟨rfl, rfl⟩, ?_, ?_, ?_⟩ <;>
      simp [buildReturn, buildApartmentForm, hE, hne]
  · have hnil : validationErrors inp = [] := List.isEmpty_iff.mp hE
    refine ⟨⟨rfl, rfl⟩, ?_, ?_, ?_⟩ <;>
      simp [buildReturn, buildApartmentForm, hE, hnil]

/-! Claim C4. -/

/-- Every optional_text-backed value satisfies the trim normalization. -/
theorem trimNorm_optVal (raw : String) : TrimNorm raw (optVal (optionalText raw)) := by
  constructor <;> intro h <;> simp [optionalText, optVal, h]

/-- C4 counterexample: notes is a free-text optional field of the form, yet a
whitespace-only notes value is stored as the empty string rather than null,
because the source guards on the raw value and then strips it, instead of
testing the stripped value. -/
theorem C4_counterexample :
    c4Input.notes = "   " ∧
    Option.map Payload.notes (buildReturn true c4Input) = some (Value.s "") :=
  ⟨by decide, by decide⟩

/-- C4 amended: every optional_text-backed free-text field of a validated
submission is trimmed with the empty or whitespace-only result becoming null,
never the empty string; the notes field is the exception: it is trimmed, but
only a genuinely empty input becomes null, and whitespace-only notes is stored
as the empty string. -/
theorem C4_trim_normalization (inp : FormInput)
    (hp : 0 < inp.price_input_value) (hbed : 0 < inp.bedrooms)
    (hbath : 0 < inp.bathrooms) (hsz : 0 < inp.size_sqft) :
    ∃ p : Payload, buildReturn true inp = some p ∧
      TrimNorm inp.data_source p.data_source ∧
      TrimNorm inp.city p.city ∧
      TrimNorm inp.area p.area ∧
      TrimNorm inp.district p.district ∧
      TrimNorm inp.address_line p.address_line ∧
      TrimNorm inp.apartment_complex p.apartment_complex ∧
      TrimNorm inp.unit_type p.unit_type ∧
      TrimNorm inp.occupancy_status p.occupancy_status ∧
      TrimNorm inp.project_name p.project_name ∧
      TrimNorm inp.tower_name p.tower_name ∧
      TrimNorm inp.developer_name p.developer_name ∧
      TrimNorm inp.handover_status p.handover_status ∧
      TrimNorm inp.kitchen_type p.kitchen_type ∧
      TrimNorm inp.parking_type p.parking_type ∧
      TrimNorm inp.view_type p.view_type ∧
      TrimNorm inp.title_deed_type p.title_deed_type ∧
      TrimNorm inp.mortgage_status p.mortgage_status ∧
      (inp.notes = "" → p.notes = Value.null) ∧
      (inp.notes ≠ "" → p.notes = Value.s (pyStrip inp.notes)) := by
  refine ⟨buildPayload inp,
    buildReturn_of_valid inp (validationErrors_eq_nil inp hp hbed hbath hsz),
    trimNorm_optVal _, trimNorm_optVal _, trimNorm_optVal _, trimNorm_optVal _,
    trimNorm_optVal _, trimNorm_optVal _, trimNorm_optVal _, trimNorm_optVal _,
    trimNorm_optVal _, trimNorm_optVal _, trimNorm_optVal _, trimNorm_optVal _,
    trimNorm_optVal _, trimNorm_optVal _, trimNorm_optVal _, trimNorm_optVal _,
    trimNorm_optVal _, ?_, ?_⟩
  · intro h
    show (if inp.notes = "" then Value.null else Value.s (pyStrip inp.notes)) = Value.null
    rw [if_pos h]
  · intro h
    show (if inp.notes = "" then Value.null else Value.s (pyStrip inp.notes)) =
      Value.s (pyStrip inp.notes)
    rw [if_neg h]

/-- C4 witness: the amended C4 theorem applied to a concrete valid submission. -/
theorem C4_witness :
    ((0 : Rat) < c4WInput.price_input_value ∧ (0 : Int) < c4WInput.bedrooms ∧
      (0 : Int) < c4WInput.bathrooms ∧ (0 : Int) < c4WInput.size_sqft) ∧
    (∃ p : Payload, buildReturn true c4WInput = some p ∧
      TrimNorm c4WInput.data_source p.data_source ∧
      TrimNorm c4WInput.city p.city ∧
      TrimNorm c4WInput.area p.area ∧
      TrimNorm c4WInput.district p.district ∧
      TrimNorm c4WInput.address_line p.address_line ∧
      TrimNorm c4WInput.apartment_complex p.apartment_complex ∧
      TrimNorm c4WInput.unit_type p.unit_type ∧
      TrimNorm c4WInput.occupancy_status p.occupancy_status ∧
      TrimNorm c4WInput.project_name p.project_name ∧
      TrimNorm c4WInput.tower_name p.tower_name ∧
      TrimNorm c4WInput.developer_name p.developer_name ∧
      TrimNorm c4WInput.handover_status p.handover_status ∧
      TrimNorm c4WInput.kitchen_type p.kitchen_type ∧
      TrimNorm c4WInput.parking_type p.parking_type ∧
      TrimNorm c4WInput.view_type p.view_type ∧
      TrimNorm c4WInput.title_deed_type p.title_deed_type ∧
      TrimNorm c4WInput.mortgage_status p.mortgage_status ∧
      (c4WInput.notes = "" → p.notes = Value.null) ∧
      (c4WInput.notes ≠ "" → p.notes = Value.s (pyStrip c4WInput.notes))) :=
  ⟨⟨by decide, by decide, by decide, by decide⟩,
    C4_trim_normalization c4WInput (by decide) (by decide) (by decide) (by decide)⟩

/-! Claim C5. -/

/-- C5 counterexample: the code truncates with int(), it does not round: on
the product 150000.7 the stored price_lkr is 150000 while the round formula
of the claim gives 150001. -/
theorem C5_counterexample :
    Option.map Payload.price_lkr (buildReturn true c5Input) = some (Value.i 150000) ∧
    priceLkrRoundSpec c5Input.price_input_value "lakhs" = 150001 ∧
    (150000 : Int) ≠ 150001 := by
  have hval : validationErrors c5Input = [] := by
    apply validationErrors_eq_nil
    · show (0 : Rat) < 1500007/1000000
      norm_num
    · decide
    · decide
    · decide
  refine ⟨?_, ?_, by decide⟩
  · rw [buildReturn_of_valid _ hval]
    show some (Value.i (priceLkr c5Input)) = some (Value.i 150000)
    have hm : priceMultiplier c5Input = 100000 := by decide
    have h0 : (0 : Rat) ≤ c5Input.price_input_value * priceMultiplier c5Input := by
      rw [hm]
      show (0 : Rat) ≤ 1500007/1000000 * 100000
      norm_num
    rw [priceLkr, pyInt_eq_floor_of_nonneg _ h0, hm]
    show some (Value.i ⌊(1500007 : Rat)/1000000 * 100000⌋) = some (Value.i 150000)
    norm_num [Int.floor_eq_iff]
  · show round ((1500007 : Rat)/1000000 * (if "lakhs" = "lakhs" then (100000 : Rat) else 1000000)) = 150001
    rw [if_pos rfl, round_eq]
    norm_num [Int.floor_eq_iff]

/-- C5 amended: for every validated record, price_lkr is the floor (the int()
truncation toward zero, equal to the floor for these positive products) of
price_input_value times the multiplier of the stored price_input_unit
(100,000 for lakhs, 1,000,000 otherwise), always recomputed from the stored
input value and unit rather than entered directly. -/
theorem C5_price_floor_of_unit (inp : FormInput)
    (hp : 0 < inp.price_input_value) (hbed : 0 < inp.bedrooms)
    (hbath : 0 < inp.bathrooms) (hsz : 0 < inp.size_sqft) :
    ∃ p : Payload, buildReturn true inp = some p ∧
      ∃ u : String, p.price_input_unit = Value.s u ∧
        p.price_input_value = Value.f inp.price_input_value ∧
        p.price_lkr = Value.i
          ⌊inp.price_input_value * (if u = "lakhs" then (100000 : Rat) else 1000000)⌋ := by
  refine ⟨buildPayload inp,
    buildReturn_of_valid inp (validationErrors_eq_nil inp hp hbed hbath hsz),
    priceInputUnit inp, rfl, rfl, ?_⟩
  show Value.i (priceLkr inp) = _
  have hpos : (0 : Rat) <
      (if priceInputUnit inp = "lakhs" then (100000 : Rat) else 1000000) := by
    split <;> norm_num
  rw [priceLkr, priceMultiplier, pyInt_eq_floor_of_nonneg _ (le_of_lt (mul_pos hp hpos))]

/-- C5 witness: the amended C5 theorem applied to a concrete valid sale
submission. -/
theorem C5_witness :
    ((0 : Rat) < c5WInput.price_input_value ∧ (0 : Int) < c5WInput.bedrooms ∧
      (0 : Int) < c5WInput.bathrooms ∧ (0 : Int) < c5WInput.size_sqft) ∧
    (∃ p : Payload, buildReturn true c5WInput = some p ∧
      ∃ u : String, p.price_input_unit = Value.s u ∧
        p.price_input_value = Value.f c5WInput.price_input_value ∧
        p.price_lkr = Value.i
          ⌊c5WInput.price_input_value * (if u = "lakhs" then (100000 : Rat) else 1000000)⌋) :=
  ⟨⟨by decide, by decide, by decide, by decide⟩,
    C5_price_floor_of_unit c5WInput (by decide) (by decide) (by decide) (by decide)⟩

/-! Claim C6. -/

/-- C6 counterexample: the sort is not stable.  On records with two rows tied
on posted_date, the output with the tied pair reversed satisfies everything
the code guarantees (the pandas default quicksort promises only some sorted
permutation of the non-null keys, with nulls appended), so tie order is not
preserved; the claim asserting stability for the selected ordering fails. -/
theorem C6_counterexample :
    sortNewestRel c6Input c6Swapped ∧
    tiesPreserved (parseRows c6Input) c6Swapped = false :=
  ⟨⟨[⟨some 20240601, 3⟩, ⟨some 20240601, 2⟩, ⟨some 20240101, 0⟩],
      by decide, by decide, by decide⟩, by decide⟩

/-- C6 amended: sorting by posted_date newest-first parses posted_date and
coerces unparsable values to null; every admissible output consists of the
parsable-key rows in non-increasing date order followed by all unparsable
(null-coerced) rows at the deterministic extreme, the end, and is a
permutation of the parsed input; tie order among equal dates is not
guaranteed (the default quicksort is not stable). -/
theorem C6_sort_guarantees (input : List SRow) (output : List PRow)
    (h : sortNewestRel input output) :
    output = output.filter (fun r => r.posted_date.isSome) ++
      (parseRows input).filter (fun r => r.posted_date.isNone) ∧
    (output.filter (fun r => r.posted_date.isSome)).Perm
      ((parseRows input).filter (fun r => r.posted_date.isSome)) ∧
    (output.filter (fun r => r.posted_date.isSome)).Pairwise
      (fun a b => b.posted_date.getD 0 ≤ a.posted_date.getD 0) ∧
    output.Perm (parseRows input) := by
  obtain ⟨front, hout, hperm, hsorted⟩ := h
  have hfrontAll : ∀ r ∈ front, r.posted_date.isSome := by
    intro r hr
    have hr2 := hperm.mem_iff.mp hr
    exact (List.mem_filter.mp hr2).2
  have hfilter_front : front.filter (fun r => r.posted_date.isSome) = front :=
    List.filter_eq_self.mpr hfrontAll
  have hnone_some : ((parseRows input).filter (fun r => r.posted_date.isNone)).filter
      (fun r => r.posted_date.isSome) = [] := by
    apply List.filter_eq_nil_iff.mpr
    intro r hr
    have h1 := (List.mem_filter.mp hr).2
    simp [Option.isNone_iff_eq_none.mp h1]
  have key : output.filter (fun r => r.posted_date.isSome) = front := by
    rw [hout, List.filter_append, hfilter_front, hnone_some, List.append_nil]
  refine ⟨by rw [key, ← hout], by rw [key]; exact hperm, by rw [key]; exact hsorted, ?_⟩
  rw [hout]
  apply List.Perm.trans (List.Perm.append_right _ hperm)
  have hfun : (fun r : PRow => r.posted_date.isNone) =
      (fun r : PRow => !r.posted_date.isSome) := by
    funext r
    cases r.posted_date <;> rfl
  rw [hfun]
  exact List.filter_append_perm (fun r => r.posted_date.isSome) (parseRows input)

/-- C6 witness: the amended C6 theorem applied to the concrete input and a
concrete admissible output. -/
theorem C6_witness :
    sortNewestRel c6Input c6Sorted ∧
    (c6Sorted = c6Sorted.filter (fun r => r.posted_date.isSome) ++
        (parseRows c6Input).filter (fun r => r.posted_date.isNone) ∧
      (c6Sorted.filter (fun r => r.posted_date.isSome)).Perm
        ((parseRows c6Input).filter (fun r => r.posted_date.isSome)) ∧
      (c6Sorted.filter (fun r => r.posted_date.isSome)).Pairwise
        (fun a b => b.posted_date.getD 0 ≤ a.posted_date.getD 0) ∧
      c6Sorted.Perm (parseRows c6Input)) := by
  have hrel : sortNewestRel c6Input c6Sorted :=
    ⟨[⟨some 20240601, 2⟩, ⟨some 20240601, 3⟩, ⟨some 20240101, 0⟩],
      by decide, by decide, by decide⟩
  exact ⟨hrel, C6_sort_guarantees c6Input c6Sorted hrel⟩

/-! Claim C7. -/

/-- A pattern with no dot compiles to all-literal tokens. -/
theorem compileRe_eq_map_lit (pat : String) (h : ∀ c ∈ pat.toList, c ≠ '.') :
    compileRe pat = pat.toList.map RTok.lit := by
  unfold compileRe
  apply List.map_congr_left
  intro c hc
  rw [if_neg (h c hc)]

/-- Matching all-literal tokens at a position is the literal prefix test. -/
theorem matchHere_map_lit (p cs : List Char) :
    matchHere (p.map RTok.lit) cs = litHere p cs := by
  induction p generalizing cs with
  | nil => cases cs <;> rfl
  | cons a p ih =>
    cases cs with
    | nil => rfl
    | cons c cs => simp [matchHere, litHere, tokMatches, ih]

/-- Searching all-literal tokens is the literal substring search. -/
theorem reSearch_map_lit (p s : List Char) :
    reSearch (p.map RTok.lit) s = substrAux p s := by
  induction s with
  | nil => simp [reSearch, substrAux, matchHere_map_lit]
  | cons c cs ih => simp [reSearch, substrAux, matchHere_map_lit, ih]

/-- On a pattern free of every Python regex metacharacter, the code filter
test coincides with case-insensitive substring containment: such a pattern is
a sequence of ordinary characters, on which the compiled fragment is exact
(each character matches itself literally, as in the re module). -/
theorem strContainsCI_eq_substrCI (pat s : String)
    (h : ∀ c ∈ pat.toList, isRegexMeta c = false) :
    strContainsCI pat s = substrCI pat s := by
  have hdot : ∀ c ∈ pat.toList, c ≠ '.' := by
    intro c hc he
    have hm := h c hc
    rw [he] at hm
    simp [isRegexMeta] at hm
  unfold strContainsCI substrCI
  rw [compileRe_eq_map_lit pat hdot, reSearch_map_lit]

/-- C7 counterexample: the district filter is a regular-expression search, not
a literal substring test: entered text "." keeps district "Colombo", which
contains no literal dot, because pandas str.contains defaults to regex=True. -/
theorem C7_counterexample :
    applyFilters "All" "." c7Rows = c7Rows ∧
    districtSubstrFilterSpec "." c7Rows = [] ∧
    applyFilters "All" "." c7Rows ≠ districtSubstrFilterSpec "." c7Rows :=
  ⟨by decide, by decide, by decide⟩

/-- C7 amended: the category filter keeps exactly the records whose
transaction_type equals the selected category, with "All" applying no filter;
the district filter, applied after it, is a case-insensitive
regular-expression search over the entered text with null districts read as
the empty string, and for entered text free of every Python regex
metacharacter (dot, caret, dollar, star, plus, question mark, braces,
brackets, parentheses, bar, backslash) it keeps exactly the records whose
district contains the text as a case-insensitive substring. -/
theorem C7_filters (df : List ViewRow) (cat dfil : String)
    (hcat : cat ≠ "All") (hd : dfil ≠ "")
    (hplain : ∀ c ∈ dfil.toList, isRegexMeta c = false) :
    applyFilters "All" "" df = df ∧
    applyFilters cat "" df = df.filter (fun r => r.transaction_type == some cat) ∧
    applyFilters "All" dfil df = districtSubstrFilterSpec dfil df ∧
    applyFilters cat dfil df =
      districtSubstrFilterSpec dfil
        (df.filter (fun r => r.transaction_type == some cat)) := by
  have hfun : (fun r : ViewRow => strContainsCI dfil (r.district.getD "")) =
      (fun r : ViewRow => substrCI dfil (r.district.getD "")) := by
    funext r
    exact strContainsCI_eq_substrCI _ _ hplain
  refine ⟨by simp [applyFilters], by simp [applyFilters, hcat], ?_, ?_⟩
  · simp [applyFilters, hd, hfun, districtSubstrFilterSpec]
  · simp [applyFilters, hcat, hd, hfun, districtSubstrFilterSpec]

/-- C7 witness: the amended C7 theorem applied to a concrete mixed row set,
category "rent" and entered text "colombo". -/
theorem C7_witness :
    ("rent" ≠ "All" ∧ "colombo" ≠ "" ∧
      (∀ c ∈ "colombo".toList, isRegexMeta c = false)) ∧
    (applyFilters "All" "" c7WRows = c7WRows ∧
      applyFilters "rent" "" c7WRows =
        c7WRows.filter (fun r => r.transaction_type == some "rent") ∧
      applyFilters "All" "colombo" c7WRows =
        districtSubstrFilterSpec "colombo" c7WRows ∧
      applyFilters "rent" "colombo" c7WRows =
        districtSubstrFilterSpec "colombo"
          (c7WRows.filter (fun r => r.transaction_type == some "rent"))) :=
  ⟨⟨by decide, by decide, by decide⟩,
    C7_filters c7WRows "rent" "colombo" (by decide) (by decide) (by decide)⟩

/-! Lookup lemmas for the column reconciliation. -/

/-- Lookup in a list tabulating a function over keys finds the function value. -/
theorem lookup_map_self {β : Type} (f : String → β) (l : List String) (c : String)
    (hc : c ∈ l) : (l.map (fun x => (x, f x))).lookup c = some (f c) := by
  induction l with
  | nil => cases hc
  | cons a l ih =>
    by_cases hac : c = a
    · subst hac
      simp [List.lookup]
    · rcases List.mem_cons.mp hc with h | h
      · exact absurd h hac
      · have hb : (c == a) = false := beq_eq_false_iff_ne.mpr hac
        simp only [List.lookup, hb]
        exact ih h

/-- Lookup finds the value of a member pair when the keys are distinct. -/
theorem lookup_of_mem_nodup {β : Type} (l : List (String × β)) (c : String) (v : β)
    (hmem : (c, v) ∈ l) (hnd : (l.map Prod.fst).Nodup) : l.lookup c = some v := by
  induction l with
  | nil => cases hmem
  | cons a l ih =>
    obtain ⟨k, b⟩ := a
    rcases List.mem_cons.mp hmem with h | h
    · rw [Prod.mk.injEq] at h
      rw [h.1, h.2]
      simp [List.lookup]
    · rw [List.map_cons] at hnd
      have hnd2 := List.nodup_cons.mp hnd
      have hck : c ≠ k := by
        intro he
        exact hnd2.1 (List.mem_map.mpr ⟨(c, v), h, by exact he⟩)
      have hb : (c == k) = false := beq_eq_false_iff_ne.mpr hck
      simp only [List.lookup, hb]
      exact ih h hnd2.2

/-- A hit in the first list survives appending a second. -/
theorem lookup_append_some {β : Type} (l1 l2 : List (String × β)) (c : String) (v : β)
    (h : l1.lookup c = some v) : (l1 ++ l2).lookup c = some v := by
  induction l1 with
  | nil => simp [List.lookup] at h
  | cons a l ih =>
    obtain ⟨k, b⟩ := a
    by_cases hc : c = k
    · subst hc
      simp only [List.cons_append, List.lookup, beq_self_eq_true] at h ⊢
      exact h
    · have hb : (c == k) = false := beq_eq_false_iff_ne.mpr hc
      simp only [List.cons_append, List.lookup, hb] at h ⊢
      exact ih h

/-- A miss in the first list defers lookup to the second. -/
theorem lookup_append_none {β : Type} (l1 l2 : List (String × β)) (c : String)
    (h : l1.lookup c = none) : (l1 ++ l2).lookup c = l2.lookup c := by
  induction l1 with
  | nil => rfl
  | cons a l ih =>
    obtain ⟨k, b⟩ := a
    by_cases hc : c = k
    · subst hc
      simp only [List.lookup, beq_self_eq_true] at h
      cases h
    · have hb : (c == k) = false := beq_eq_false_iff_ne.mpr hc
      simp only [List.cons_append, List.lookup, hb] at h ⊢
      exact ih h

/-- Lookup misses when the key labels no pair. -/
theorem lookup_eq_none_of_not_mem {β : Type} (l : List (String × β)) (c : String)
    (h : c ∉ l.map Prod.fst) : l.lookup c = none := by
  induction l with
  | nil => rfl
  | cons a l ih =>
    obtain ⟨k, b⟩ := a
    have h1 : c ≠ k := by
      intro he
      exact h (by simp [he])
    have h2 : c ∉ l.map Prod.fst := fun hm => h (by simp; right; simpa using hm)
    have hb : (c == k) = false := beq_eq_false_iff_ne.mpr h1
    simp only [List.lookup, hb]
    exact ih h2

/-! Claim C8. -/

/-- C8: for every working record set with distinct column labels handed to the
renderer, reconciliation yields exactly the canonical column set in canonical
order: a canonical column present in the source keeps its values, and a
canonical column absent from the source is injected as all-null. -/
theorem C8_reconcile (df : Df) (c d : String) (vs : List Value)
    (hnodup : (colNames df).Nodup)
    (hcv : (c, vs) ∈ df.cols) (hc : c ∈ APARTMENT_COLUMNS)
    (hd : d ∈ APARTMENT_COLUMNS) (hdabs : d ∉ colNames df) :
    colNames (reconcile df) = APARTMENT_COLUMNS ∧
    (reconcile df).cols.lookup c = some vs ∧
    (reconcile df).cols.lookup d = some (List.replicate df.nrows Value.null) := by
  have hsel : (reconcile df).cols =
      APARTMENT_COLUMNS.map (fun x => (x, ((injectMissing df).cols.lookup x).getD [])) := rfl
  refine ⟨?_, ?_, ?_⟩
  · rw [colNames, hsel, List.map_map]
    have hcomp : (Prod.fst ∘ fun x : String =>
        (x, ((injectMissing df).cols.lookup x).getD [])) = id := rfl
    rw [hcomp, List.map_id]
  · have hinj : (injectMissing df).cols.lookup c = some vs := by
      have hbase : df.cols.lookup c = some vs := lookup_of_mem_nodup df.cols c vs hcv hnodup
      exact lookup_append_some _ _ _ _ hbase
    rw [hsel, lookup_map_self _ _ _ hc, hinj]
    rfl
  · have hdf : df.cols.lookup d = none := lookup_eq_none_of_not_mem df.cols d hdabs
    have hmiss : d ∈ APARTMENT_COLUMNS.filter (fun x => !(colNames df).contains x) := by
      rw [List.mem_filter]
      refine ⟨hd, ?_⟩
      simpa using hdabs
    have hinj : (injectMissing df).cols.lookup d =
        some (List.replicate df.nrows Value.null) := by
      show (df.cols ++ (APARTMENT_COLUMNS.filter (fun x => !(colNames df).contains x)).map
        (fun x => (x, List.replicate df.nrows Value.null))).lookup d = _
      rw [lookup_append_none _ _ _ hdf]
      exact lookup_map_self (fun _ => List.replicate df.nrows Value.null) _ d hmiss
    rw [hsel, lookup_map_self _ _ _ hd, hinj]
    rfl

/-- C8 witness: the C8 theorem applied to a concrete dataframe with one
canonical column present, one extra column, and the canonical column "area"
absent. -/
theorem C8_witness :
    ((colNames c8Df).Nodup ∧
      ("city", [Value.s "Colombo", Value.s "Kandy"]) ∈ c8Df.cols ∧
      "city" ∈ APARTMENT_COLUMNS ∧ "area" ∈ APARTMENT_COLUMNS ∧
      "area" ∉ colNames c8Df) ∧
    (colNames (reconcile c8Df) = APARTMENT_COLUMNS ∧
      (reconcile c8Df).cols.lookup "city" = some [Value.s "Colombo", Value.s "Kandy"] ∧
      (reconcile c8Df).cols.lookup "area" = some (List.replicate c8Df.nrows Value.null)) :=
  ⟨⟨by decide, by decide, by decide, by decide, by decide⟩,
    C8_reconcile c8Df "city" "area" [Value.s "Colombo", Value.s "Kandy"]
      (by decide) (by decide) (by decide) (by decide) (by decide)⟩

/-! Claim C9. -/

/-- C9: insert issues a single parameterized statement whose SQL text is one
fixed string independent of every payload value (the payload reaches the
statement only as the separately passed named bind parameters), and whose
column list is exactly the full canonical schema minus id, in schema order. -/
theorem C9_parameterized_insert :
    (∀ p : Payload, insertApartment p = (insertQueryText, p)) ∧
    (∀ p q : Payload, (insertApartment p).1 = (insertApartment q).1) ∧
    "id" ∉ insertColumns ∧
    insertColumns.Sublist APARTMENT_COLUMNS ∧
    (∀ c : String, c ∈ insertColumns ↔ c ∈ APARTMENT_COLUMNS ∧ c ≠ "id") := by
  refine ⟨fun p => rfl, fun p q => rfl, by decide, List.filter_sublist _, ?_⟩
  intro c
  simp [insertColumns, List.mem_filter]

/-! Claim C10. -/

/-- C10: when the DATABASE_IPV4_HOST environment variable is unset or empty,
the connection-string resolver returns the scheme-normalized URI unchanged
even if DATABASE_IPV4_PORT is set: the port override applies only in tandem
with a host override. -/
theorem C10_no_override_without_host (uri raw : String) (port host : Option String)
    (h : host = none ∨ host = some "") :
    applyOverrides host port uri = uri ∧
    resolveDatabaseUri host port raw = normalizePostgresUri raw := by
  have hfalse : pyTruthy host = false := by
    rcases h with h | h <;> subst h <;> rfl
  constructor
  · unfold applyOverrides
    rw [hfalse]
    simp
  · unfold resolveDatabaseUri applyOverrides
    rw [hfalse]
    simp

/-- C10 witness: the C10 theorem applied to an unset host, a set port and a
concrete URI (one already driver-qualified, one needing scheme
normalization). -/
theorem C10_witness :
    ((none : Option String) = none ∨ (none : Option String) = some "") ∧
    (applyOverrides none (some "6543") "postgresql+psycopg://u:pw@h:5432/db" =
        "postgresql+psycopg://u:pw@h:5432/db" ∧
      resolveDatabaseUri none (some "6543") "postgres://u:pw@h/db" =
        normalizePostgresUri "postgres://u:pw@h/db") :=
  ⟨Or.inl rfl,
    C10_no_override_without_host "postgresql+psycopg://u:pw@h:5432/db"
      "postgres://u:pw@h/db" (some "6543") none (Or.inl rfl)⟩

end SLApt

